import Mathlib

/-!
Verification of `sensor.py` from the `iotawatt_ha` integration.

The module is embedded shallowly:
* Python numeric sensor readings become `ℚ`; a value that may be `None`
  becomes `PyVal` (`num q` or `pynone`).
* Fallible Python expressions (a `TypeError` from comparing or multiplying
  `None`) become `Except String _`.
* The entity-description dataclass becomes a structure with the same fields;
  the only transform occurring in the module (`lambda value: value * 100`)
  becomes the `Transform.times100` constructor so descriptors stay decidably
  comparable.
* `datetime` objects are represented by their Unix epoch value in `ℚ`
  (the code only consumes `last_reset.timestamp()` and truthiness, and a
  `datetime` object is always truthy); `homeassistant.util.dt.parse_datetime`
  is an external collaborator and is passed in as a `String → Option ℚ`
  parameter.
* The coordinator snapshot `coordinator.data["sensors"]` becomes an
  association list `List (String × Sensor)`.
* Side effects (warning logs, registry removal, self removal, the base-class
  update) are made explicit: functions return the number of warnings logged
  and a list of `UpdateAction`s.
-/

namespace IotaWatt

/-- A Python value that is either a number or `None`. -/
inductive PyVal where
  | num (q : ℚ)
  | pynone
deriving DecidableEq, Repr

/-- The only value-transform appearing in `sensor.py`:
`value=lambda value: value * 100` on the `"PF"` entry. -/
inductive Transform where
  | times100
deriving DecidableEq, Repr

/-- Interpretation of a `Transform` on a number. -/
def applyTransformFn : Transform → ℚ → ℚ
  | Transform.times100, v => v * 100

/-- Embedding of the `IotaWattSensorEntityDescription` dataclass
(`sensor.py` lines 39-45) together with the inherited
`SensorEntityDescription` fields the module sets.  Field defaults mirror the
dataclass defaults: every optional field defaults to `None` and
`entity_registry_enabled_default` defaults to `True`. -/
structure IotaWattSensorEntityDescription where
  key : String
  native_unit_of_measurement : Option String := Option.none
  state_class : Option String := Option.none
  device_class : Option String := Option.none
  icon : Option String := Option.none
  entity_registry_enabled_default : Bool := true
  value : Option Transform := Option.none
  min_value : Option ℚ := Option.none
  max_value : Option ℚ := Option.none
deriving DecidableEq, Repr

/-- `ENTITY_DESCRIPTION_KEY_MAP["Amps"]` (`sensor.py` lines 49-57). -/
def ampsDescription : IotaWattSensorEntityDescription :=
  { key := "Amps"
    native_unit_of_measurement := some "A"
    state_class := some "measurement"
    device_class := some "current"
    entity_registry_enabled_default := false
    min_value := some (-1000)
    max_value := some 1000 }

/-- `ENTITY_DESCRIPTION_KEY_MAP["Hz"]` (`sensor.py` lines 58-67). -/
def hzDescription : IotaWattSensorEntityDescription :=
  { key := "Hz"
    native_unit_of_measurement := some "Hz"
    state_class := some "measurement"
    device_class := some "frequency"
    icon := some "mdi:flash"
    entity_registry_enabled_default := false
    min_value := some 0
    max_value := some 1000 }

/-- `ENTITY_DESCRIPTION_KEY_MAP["PF"]` (`sensor.py` lines 68-77). -/
def pfDescription : IotaWattSensorEntityDescription :=
  { key := "PF"
    native_unit_of_measurement := some "%"
    state_class := some "measurement"
    device_class := some "power_factor"
    value := some Transform.times100
    entity_registry_enabled_default := false
    min_value := some 0
    max_value := some 100 }

/-- `ENTITY_DESCRIPTION_KEY_MAP["Watts"]` (`sensor.py` lines 78-85). -/
def wattsDescription : IotaWattSensorEntityDescription :=
  { key := "Watts"
    native_unit_of_measurement := some "W"
    state_class := some "measurement"
    device_class := some "power"
    min_value := some (-100000)
    max_value := some 100000 }

/-- `ENTITY_DESCRIPTION_KEY_MAP["WattHours"]` (`sensor.py` lines 86-93). -/
def wattHoursDescription : IotaWattSensorEntityDescription :=
  { key := "WattHours"
    native_unit_of_measurement := some "Wh"
    state_class := some "total"
    device_class := some "energy"
    min_value := some (-1000000)
    max_value := some 1000000 }

/-- `ENTITY_DESCRIPTION_KEY_MAP["VA"]` (`sensor.py` lines 94-102). -/
def vaDescription : IotaWattSensorEntityDescription :=
  { key := "VA"
    native_unit_of_measurement := some "VA"
    state_class := some "measurement"
    device_class := some "apparent_power"
    entity_registry_enabled_default := false
    min_value := some (-100000)
    max_value := some 100000 }

/-- `ENTITY_DESCRIPTION_KEY_MAP["VAR"]` (`sensor.py` lines 103-111).
The unit constant `VOLT_AMPERE_REACTIVE` lives in this repository's
`const.py`, which is not among the provided sources; modelled from the spec
table as the volt-ampere-reactive unit string. -/
def varDescription : IotaWattSensorEntityDescription :=
  { key := "VAR"
    native_unit_of_measurement := some "VAR"
    state_class := some "measurement"
    icon := some "mdi:flash"
    entity_registry_enabled_default := false
    min_value := some (-100000)
    max_value := some 100000 }

/-- `ENTITY_DESCRIPTION_KEY_MAP["VARh"]` (`sensor.py` lines 112-120).
The unit constant `VOLT_AMPERE_REACTIVE_HOURS` lives in this repository's
`const.py`, which is not among the provided sources; modelled from the spec
table as the volt-ampere-reactive-hours unit string. -/
def varhDescription : IotaWattSensorEntityDescription :=
  { key := "VARh"
    native_unit_of_measurement := some "VARh"
    state_class := some "measurement"
    icon := some "mdi:flash"
    entity_registry_enabled_default := false
    min_value := some (-1000000)
    max_value := some 1000000 }

/-- `ENTITY_DESCRIPTION_KEY_MAP["Volts"]` (`sensor.py` lines 121-129). -/
def voltsDescription : IotaWattSensorEntityDescription :=
  { key := "Volts"
    native_unit_of_measurement := some "V"
    state_class := some "measurement"
    device_class := some "voltage"
    entity_registry_enabled_default := false
    min_value := some 0
    max_value := some 1000 }

/-- `ENTITY_DESCRIPTION_KEY_MAP` (`sensor.py` lines 48-130) as an
association list; Python `dict` lookup is exact, case-sensitive string
equality, which `List.lookup` reproduces. -/
def ENTITY_DESCRIPTION_KEY_MAP : List (String × IotaWattSensorEntityDescription) :=
  [("Amps", ampsDescription), ("Hz", hzDescription), ("PF", pfDescription),
   ("Watts", wattsDescription), ("WattHours", wattHoursDescription),
   ("VA", vaDescription), ("VAR", varDescription), ("VARh", varhDescription),
   ("Volts", voltsDescription)]

/-- `IotaWattSensorEntityDescription("base_sensor")` — the fallback
descriptor built in `_create_entity` (`sensor.py` line 148): every field
other than the key retains its dataclass default. -/
def baseSensorDescription : IotaWattSensorEntityDescription :=
  { key := "base_sensor" }

/-- `ENTITY_DESCRIPTION_KEY_MAP.get(data.getUnit(), IotaWattSensorEntityDescription("base_sensor"))`
(`sensor.py` lines 147-149). -/
def lookupDescription (unit : String) : IotaWattSensorEntityDescription :=
  (ENTITY_DESCRIPTION_KEY_MAP.lookup unit).getD baseSensorDescription

/-- The slice of the `iotawattpy` `Sensor` object that `sensor.py` reads. -/
structure Sensor where
  getSensorID : Option String := Option.none
  getName : String := ""
  getUnit : String := ""
  getValue : PyVal := PyVal.pynone
  getBegin : Option String := Option.none
  getType : String := ""
  getChannel : Option Nat := Option.none
  hub_mac_address : String := ""
deriving DecidableEq, Repr

/-- The descriptor `_create_entity` binds to the adapter for `key`
(`sensor.py` lines 146-149): the snapshot entry's unit string, looked up in
the table with the `base_sensor` fallback.  `Option.none` when the key is
absent from the snapshot (Python would raise `KeyError`). -/
def createEntityDescription (snapshot : List (String × Sensor)) (key : String) :
    Option IotaWattSensorEntityDescription :=
  (snapshot.lookup key).map fun data => lookupDescription data.getUnit

/-- `self._attr_unique_id = self._sensor_data.getSensorID()` in
`IotaWattSensor.__init__` (`sensor.py` line 187): the unique id the adapter
is constructed with, `Option.none` when the key is absent. -/
def initAttrUniqueId (snapshot : List (String × Sensor)) (key : String) :
    Option (Option String) :=
  (snapshot.lookup key).map fun data => data.getSensorID

/-- `value = func(value)` (`sensor.py` lines 245-246): apply the
descriptor's transform when one is configured.  Multiplying Python `None`
raises `TypeError`. -/
def transformedValue (desc : IotaWattSensorEntityDescription) (raw : PyVal) :
    Except String PyVal :=
  match desc.value with
  | Option.none => Except.ok raw
  | some f =>
    match raw with
    | PyVal.num q => Except.ok (PyVal.num (applyTransformFn f q))
    | PyVal.pynone =>
      Except.error "TypeError: unsupported operand type(s) for *: NoneType and int"

/-- The `# Apply limits` block of `native_value` (`sensor.py` lines
248-256): the min check runs first, then the max check; each bound is only
consulted when configured (`is not None`); an ordered comparison against
Python `None` raises `TypeError`.  Returns the reported value
(`Option.none` = unavailable) paired with the number of warning log lines
emitted. -/
def applyLimits (desc : IotaWattSensorEntityDescription) (value : PyVal) :
    Except String (Option PyVal × Nat) :=
  match desc.min_value with
  | some m =>
    match value with
    | PyVal.pynone =>
      Except.error "TypeError: not supported between instances of NoneType and float"
    | PyVal.num q =>
      if q < m then Except.ok (Option.none, 1)
      else
        match desc.max_value with
        | some mx =>
          if q > mx then Except.ok (Option.none, 1)
          else Except.ok (some value, 0)
        | Option.none => Except.ok (some value, 0)
  | Option.none =>
    match desc.max_value with
    | some mx =>
      match value with
      | PyVal.pynone =>
        Except.error "TypeError: not supported between instances of NoneType and float"
      | PyVal.num q =>
        if q > mx then Except.ok (Option.none, 1)
        else Except.ok (some value, 0)
    | Option.none => Except.ok (some value, 0)

/-- `IotaWattSensor.native_value` (`sensor.py` lines 241-256): read the
sensor's value, apply the optional transform, then apply the limits. -/
def native_value (desc : IotaWattSensorEntityDescription) (data : Sensor) :
    Except String (Option PyVal × Nat) :=
  match transformedValue desc data.getValue with
  | Except.error e => Except.error e
  | Except.ok value => applyLimits desc value

/-- The observable steps `_handle_coordinator_update` takes. -/
inductive UpdateAction where
  | removeFromRegistry
  | selfRemove
  | recomputeLastReset
  | superUpdate
deriving DecidableEq, Repr

/-- Python truthiness of an optional string: `None` and `""` are falsy. -/
def pyTruthyStr : Option String → Bool
  | Option.none => false
  | some s => s ≠ ""

/-- The last-reset recomputation of `_handle_coordinator_update`
(`sensor.py` lines 221-227): `if (begin := data.getBegin()) and
(last_reset := dt.parse_datetime(begin)):` — when `getBegin()` is falsy
(`None` or `""`) or `parse_datetime` returns `None`, the whole block is
skipped and `_attr_last_reset` keeps its previous value; when the parse
succeeds (a `datetime` is always truthy), the marker becomes the parsed
time if its epoch value exceeds 86400, else `None`. -/
def computeLastReset (parse : String → Option ℚ) (data : Sensor)
    (lastReset : Option ℚ) : Option ℚ :=
  match data.getBegin with
  | Option.none => lastReset
  | some b =>
    if b = "" then lastReset
    else
      match parse b with
      | Option.none => lastReset
      | some t => if t > 86400 then some t else Option.none

/-- `IotaWattSensor._handle_coordinator_update` (`sensor.py` lines
211-229).  When the adapter's key has vanished from the snapshot, exactly
one removal action is performed (registry removal when `_attr_unique_id` is
truthy, asynchronous self-removal otherwise) and the method returns; when
the key is present, the last-reset marker is recomputed and the base-class
handler runs.  Returns the new `_attr_last_reset` and the action trace. -/
def handleCoordinatorUpdate (parse : String → Option ℚ)
    (snapshot : List (String × Sensor)) (key : String)
    (attr_unique_id : Option String) (lastReset : Option ℚ) :
    Option ℚ × List UpdateAction :=
  match snapshot.lookup key with
  | Option.none =>
    (lastReset,
      [if pyTruthyStr attr_unique_id then UpdateAction.removeFromRegistry
       else UpdateAction.selfRemove])
  | some data =>
    (computeLastReset parse data lastReset,
      [UpdateAction.recomputeLastReset, UpdateAction.superUpdate])

/-- The body of `new_data_received` (`sensor.py` lines 159-167) together
with the `created.add(key)` done by each `_create_entity` call (line 145):
walk the coordinator's current keys in order, skipping keys already in
`created`; every key actually created is appended to `created` before the
next key is examined.  Returns the list of keys for which an adapter was
created and the updated `created` set (modelled as a list, membership
playing the Python-set role). -/
def newDataReceived (sensors : List String) (created : List String) :
    List String × List String :=
  match sensors with
  | [] => ([], created)
  | k :: rest =>
    if k ∈ created then newDataReceived rest created
    else
      let r := newDataReceived rest (created ++ [k])
      (k :: r.1, r.2)

/-- A sequence of coordinator notifications after setup: each element is
the coordinator's key list at that notification; returns the concatenated
creation log and the final `created` set. -/
def runOps (ops : List (List String)) (created : List String) :
    List String × List String :=
  match ops with
  | [] => ([], created)
  | s :: rest =>
    let r := newDataReceived s created
    let r2 := runOps rest r.2
    (r.1 ++ r2.1, r2.2)

/-- `async_setup_entry` (`sensor.py` lines 133-169) followed by any
sequence of `new_data_received` notifications: setup starts with
`created = set()` and creates one adapter per key of the initial snapshot
unconditionally (`_create_entity(key) for key in coordinator.data["sensors"]`,
dict keys being pairwise distinct), leaving `created` equal to the initial
key list; each later notification goes through `newDataReceived`.  Returns
the full creation log. -/
def setupThenNotify (initialKeys : List String) (ops : List (List String)) :
    List String :=
  initialKeys ++ (runOps ops initialKeys).1

/-- A `dt.parse_datetime` stand-in that fails on every input (as the real
parser does on garbage strings). -/
def parseNoneFn : String → Option ℚ := fun _ => Option.none

/-- A `dt.parse_datetime` stand-in mapping the string `"ts"` to epoch
86401 and failing elsewhere. -/
def parseTs86401 : String → Option ℚ :=
  fun s => if s = "ts" then some 86401 else Option.none

/-- A `dt.parse_datetime` stand-in mapping the string `"ts"` to epoch
86400 and failing elsewhere. -/
def parseTs86400 : String → Option ℚ :=
  fun s => if s = "ts" then some 86400 else Option.none

deriving instance DecidableEq for Except

/- Shared lemmas about the entity-creation bookkeeping. -/

/-- Keys already in `created` are still in `created` afterwards. -/
lemma newDataReceived_mem_snd (k : String) (s : List String) :
    ∀ c, k ∈ c → k ∈ (newDataReceived s c).2 := by
  induction s with
  | nil => intro c hk; simpa [newDataReceived] using hk
  | cons a rest ih =>
    intro c hk
    by_cases ha : a ∈ c
    · simpa [newDataReceived, ha] using ih c hk
    · simpa [newDataReceived, ha] using ih (c ++ [a]) (List.mem_append_left _ hk)

/-- Every key of the processed snapshot ends up in `created`. -/
lemma newDataReceived_mem_snd_of_mem (k : String) (s : List String) :
    ∀ c, k ∈ s → k ∈ (newDataReceived s c).2 := by
  induction s with
  | nil => intro c hk; exact absurd hk (List.not_mem_nil k)
  | cons a rest ih =>
    intro c hk
    by_cases ha : a ∈ c
    · rcases List.mem_cons.mp hk with rfl | hk'
      · simpa [newDataReceived, ha] using newDataReceived_mem_snd k rest c ha
      · simpa [newDataReceived, ha] using ih c hk'
    · rcases List.mem_cons.mp hk with rfl | hk'
      · simpa [newDataReceived, ha] using
          newDataReceived_mem_snd k rest (c ++ [k])
            (List.mem_append_right _ (List.mem_singleton.mpr rfl))
      · simpa [newDataReceived, ha] using ih (c ++ [a]) hk'

/-- When every snapshot key is already tracked, nothing is created. -/
lemma newDataReceived_fst_nil (s : List String) :
    ∀ c, (∀ k ∈ s, k ∈ c) → (newDataReceived s c).1 = [] := by
  induction s with
  | nil => intro c _; rfl
  | cons a rest ih =>
    intro c h
    have ha : a ∈ c := h a (List.mem_cons_self a rest)
    simpa [newDataReceived, ha] using
      ih c (fun k hk => h k (List.mem_cons_of_mem a hk))

/-- The updated `created` set is the old one extended by the creation log. -/
lemma newDataReceived_snd_eq (s : List String) :
    ∀ c, (newDataReceived s c).2 = c ++ (newDataReceived s c).1 := by
  induction s with
  | nil => intro c; simp [newDataReceived]
  | cons a rest ih =>
    intro c
    by_cases ha : a ∈ c
    · simpa [newDataReceived, ha] using ih c
    · simp [newDataReceived, ha, ih (c ++ [a])]

/-- A key already tracked is never created. -/
lemma newDataReceived_count_zero (k : String) (s : List String) :
    ∀ c, k ∈ c → (newDataReceived s c).1.count k = 0 := by
  induction s with
  | nil => intro c _; rfl
  | cons a rest ih =>
    intro c hk
    by_cases ha : a ∈ c
    · simpa [newDataReceived, ha] using ih c hk
    · have hak : a ≠ k := fun h => ha (h ▸ hk)
      have : (newDataReceived rest (c ++ [a])).1.count k = 0 :=
        ih (c ++ [a]) (List.mem_append_left _ hk)
      simp [newDataReceived, ha, List.count_cons, this, hak]

/-- One notification creates each key at most once. -/
lemma newDataReceived_count_le_one (k : String) (s : List String) :
    ∀ c, (newDataReceived s c).1.count k ≤ 1 := by
  induction s with
  | nil => intro c; simp [newDataReceived]
  | cons a rest ih =>
    intro c
    by_cases ha : a ∈ c
    · simpa [newDataReceived, ha] using ih c
    · by_cases hak : k = a
      · subst hak
        have h0 : (newDataReceived rest (c ++ [k])).1.count k = 0 :=
          newDataReceived_count_zero k rest (c ++ [k])
            (List.mem_append_right _ (List.mem_singleton.mpr rfl))
        simp [newDataReceived, ha, List.count_cons, h0]
      · have := ih c
        simp only [newDataReceived, ha, if_neg ha]
        simpa [List.count_cons, hak] using ih (c ++ [a])

/-- Across a whole run, a key already tracked is never created. -/
lemma runOps_count_zero (k : String) (ops : List (List String)) :
    ∀ c, k ∈ c → (runOps ops c).1.count k = 0 := by
  induction ops with
  | nil => intro c _; rfl
  | cons s rest ih =>
    intro c hk
    have h1 : (newDataReceived s c).1.count k = 0 :=
      newDataReceived_count_zero k s c hk
    have h2 : (runOps rest (newDataReceived s c).2).1.count k = 0 :=
      ih _ (newDataReceived_mem_snd k s c hk)
    simp [runOps, List.count_append, h1, h2]

/-- Across a whole run, each key is created at most once. -/
lemma runOps_count_le_one (k : String) (ops : List (List String)) :
    ∀ c, (runOps ops c).1.count k ≤ 1 := by
  induction ops with
  | nil => intro c; simp [runOps]
  | cons s rest ih =>
    intro c
    by_cases hk : k ∈ (newDataReceived s c).1
    · have h2 : (runOps rest (newDataReceived s c).2).1.count k = 0 := by
        refine runOps_count_zero k rest _ ?_
        rw [newDataReceived_snd_eq]
        exact List.mem_append_right _ hk
      have h1 := newDataReceived_count_le_one k s c
      simp only [runOps, List.count_append]
      omega
    · have h1 : (newDataReceived s c).1.count k = 0 := List.count_eq_zero.mpr hk
      have h2 := ih (newDataReceived s c).2
      simp only [runOps, List.count_append]
      omega

/-- C1: for every descriptor with both a min and a max bound configured,
`native_value` reports the transformed value when it lies within the bounds
inclusively, and reports unavailable (`None`) with exactly one warning log
entry when it is strictly below the min or strictly above the max; in both
cases no exception is raised (the result is `ok`, so the entity stays
registered). -/
theorem C1_bounds_check (desc : IotaWattSensorEntityDescription) (m mx q : ℚ)
    (data : Sensor) (hm : desc.min_value = some m) (hmx : desc.max_value = some mx)
    (ht : transformedValue desc data.getValue = Except.ok (PyVal.num q)) :
    (m ≤ q → q ≤ mx →
      native_value desc data = Except.ok (some (PyVal.num q), 0)) ∧
    (q < m ∨ mx < q →
      native_value desc data = Except.ok (Option.none, 1)) := by
  constructor
  · intro h1 h2
    simp [native_value, ht, applyLimits, hm, hmx, not_lt.mpr h1, not_lt.mpr h2]
  · rintro (h | h)
    · simp [native_value, ht, applyLimits, hm, hmx, h]
    · simp [native_value, ht, applyLimits, hm, hmx, h]

/-- Witness for C1 at the Amps descriptor: the boundary value `-1000` is
reported as present with zero warnings. -/
theorem C1_bounds_check_witness :
    native_value ampsDescription { getValue := PyVal.num (-1000) } =
      Except.ok (some (PyVal.num (-1000)), 0) :=
  (C1_bounds_check ampsDescription (-1000) 1000 (-1000)
      { getValue := PyVal.num (-1000) } rfl rfl rfl).1 (by norm_num) (by norm_num)

/-- C2: descriptor lookup returns the exact matching table entry for each
of the nine unit strings (with the fields listed in the table, e.g.
`Amps` → ampere / current / no transform / [-1000, 1000] and
`PF` → percent / power factor / ×100 / [0, 100]), returns the minimal
fallback descriptor (no device class, no bounds, no transform) for every
other string — matching being exact and case-sensitive — and is exactly
what `_create_entity` binds from the snapshot entry's unit. -/
theorem C2_descriptor_lookup :
    (∀ s : String,
      s ∉ ["Amps", "Hz", "PF", "Watts", "WattHours", "VA", "VAR", "VARh", "Volts"] →
      lookupDescription s = baseSensorDescription) ∧
    (lookupDescription "Amps" = ampsDescription ∧
     lookupDescription "Hz" = hzDescription ∧
     lookupDescription "PF" = pfDescription ∧
     lookupDescription "Watts" = wattsDescription ∧
     lookupDescription "WattHours" = wattHoursDescription ∧
     lookupDescription "VA" = vaDescription ∧
     lookupDescription "VAR" = varDescription ∧
     lookupDescription "VARh" = varhDescription ∧
     lookupDescription "Volts" = voltsDescription ∧
     ampsDescription.native_unit_of_measurement = some "A" ∧
     ampsDescription.device_class = some "current" ∧
     ampsDescription.value = Option.none ∧
     ampsDescription.min_value = some (-1000) ∧
     ampsDescription.max_value = some 1000 ∧
     pfDescription.native_unit_of_measurement = some "%" ∧
     pfDescription.device_class = some "power_factor" ∧
     pfDescription.value = some Transform.times100 ∧
     pfDescription.min_value = some 0 ∧
     pfDescription.max_value = some 100 ∧
     baseSensorDescription.device_class = Option.none ∧
     baseSensorDescription.value = Option.none ∧
     baseSensorDescription.min_value = Option.none ∧
     baseSensorDescription.max_value = Option.none) ∧
    (∀ (snapshot : List (String × Sensor)) (key : String) (data : Sensor),
      snapshot.lookup key = some data →
      createEntityDescription snapshot key = some (lookupDescription data.getUnit)) := by
  refine ⟨?_, by decide, ?_⟩
  · intro s hs
    simp only [List.mem_cons, List.not_mem_nil, or_false, not_or] at hs
    obtain ⟨h1, h2, h3, h4, h5, h6, h7, h8, h9⟩ := hs
    simp [lookupDescription, ENTITY_DESCRIPTION_KEY_MAP, List.lookup,
      beq_eq_false_iff_ne.mpr h1, beq_eq_false_iff_ne.mpr h2,
      beq_eq_false_iff_ne.mpr h3, beq_eq_false_iff_ne.mpr h4,
      beq_eq_false_iff_ne.mpr h5, beq_eq_false_iff_ne.mpr h6,
      beq_eq_false_iff_ne.mpr h7, beq_eq_false_iff_ne.mpr h8,
      beq_eq_false_iff_ne.mpr h9]
  · intro snapshot key data h
    simp [createEntityDescription, h]

/-- Witness for C2: a lowercase string falls back (case-sensitive
matching), and `_create_entity` binds the PF entry from a snapshot whose
sensor reports unit `"PF"`. -/
theorem C2_descriptor_lookup_witness :
    lookupDescription "amps" = baseSensorDescription ∧
    createEntityDescription [("in1", { getUnit := "PF" })] "in1" =
      some (lookupDescription "PF") :=
  ⟨C2_descriptor_lookup.1 "amps" (by decide),
   C2_descriptor_lookup.2.2 [("in1", { getUnit := "PF" })] "in1"
     { getUnit := "PF" } (by decide)⟩

/-- C5: for the PF descriptor the bounds apply to the transformed value
(raw × 100): raw 0.5 is reported as 50, raw 1.0 as 100 (inclusive upper
bound, not suppressed), and raw 1.2 transforms to 120 and is suppressed as
unavailable with one warning. -/
theorem C5_pf_transform :
    transformedValue pfDescription (PyVal.num (1/2)) = Except.ok (PyVal.num 50) ∧
    native_value pfDescription { getValue := PyVal.num (1/2) } =
      Except.ok (some (PyVal.num 50), 0) ∧
    native_value pfDescription { getValue := PyVal.num 1 } =
      Except.ok (some (PyVal.num 100), 0) ∧
    transformedValue pfDescription (PyVal.num (6/5)) = Except.ok (PyVal.num 120) ∧
    native_value pfDescription { getValue := PyVal.num (6/5) } =
      Except.ok (Option.none, 1) := by
  refine ⟨?_, ?_, ?_, ?_, ?_⟩ <;>
    norm_num [native_value, transformedValue, applyLimits, applyTransformFn,
      pfDescription]

/-- C6: the new-sensor-detection path is idempotent — running
`new_data_received` a second time on an unchanged key set creates zero
additional adapters, because only keys outside the tracking set are
created. -/
theorem C6_idempotent (sensors created : List String) :
    (newDataReceived sensors (newDataReceived sensors created).2).1 = [] :=
  newDataReceived_fst_nil sensors _
    (fun k hk => newDataReceived_mem_snd_of_mem k sensors created hk)

/-- C7: across any sequence of one setup followed by new-data
notifications on one factory instance, each sensor key is used to create
at most one adapter (the tracking set is consulted and extended before the
next key is examined). -/
theorem C7_at_most_one (initialKeys : List String) (ops : List (List String))
    (k : String) (h : initialKeys.Nodup) :
    (setupThenNotify initialKeys ops).count k ≤ 1 := by
  unfold setupThenNotify
  rw [List.count_append]
  by_cases hk : k ∈ initialKeys
  · have h2 : (runOps ops initialKeys).1.count k = 0 :=
      runOps_count_zero k ops initialKeys hk
    have h1 : initialKeys.count k ≤ 1 := List.nodup_iff_count_le_one.mp h k
    omega
  · have h1 : initialKeys.count k = 0 := List.count_eq_zero.mpr hk
    have h2 := runOps_count_le_one k ops initialKeys
    omega

/-- Witness for C7: a concrete run — setup with keys `in1, in2`, then a
notification adding `out1` — creates `in1` exactly once. -/
theorem C7_at_most_one_witness :
    (["in1", "in2"] : List String).Nodup ∧
    (setupThenNotify ["in1", "in2"] [["in1", "in2", "out1"]]).count "in1" ≤ 1 :=
  ⟨by decide, C7_at_most_one ["in1", "in2"] [["in1", "in2", "out1"]] "in1" (by decide)⟩

/-- C3 counterexample: the claim says an unparseable begin-timestamp
clears the last-reset marker to `None`, but the guard
`if (begin := ...) and (last_reset := dt.parse_datetime(begin)):` skips the
whole block when the parse fails, so a previously set marker (epoch 100000
here) survives unchanged instead of being cleared. -/
theorem C3_counterexample :
    (handleCoordinatorUpdate parseNoneFn [("in1", { getBegin := some "garbage" })]
        "in1" (some "id1") (some 100000)).1 = some 100000 ∧
    (handleCoordinatorUpdate parseNoneFn [("in1", { getBegin := some "garbage" })]
        "in1" (some "id1") (some 100000)).1 ≠ Option.none := by
  constructor
  · rfl
  · intro h
    simp [handleCoordinatorUpdate, List.lookup, computeLastReset, parseNoneFn] at h

/-- C3 (amended): on an update where the key is still present, a missing,
empty, or unparseable begin-timestamp leaves the last-reset marker
unchanged (the recomputation block is skipped), silently and without
logging. -/
theorem C3_amended_unparseable_keeps_marker (parse : String → Option ℚ)
    (snapshot : List (String × Sensor)) (key : String)
    (uid : Option String) (lr : Option ℚ) (data : Sensor)
    (hdata : snapshot.lookup key = some data)
    (hbegin : data.getBegin = Option.none ∨ data.getBegin = some "" ∨
      ∃ b, data.getBegin = some b ∧ parse b = Option.none) :
    (handleCoordinatorUpdate parse snapshot key uid lr).1 = lr := by
  simp only [handleCoordinatorUpdate, hdata]
  rcases hbegin with h | h | ⟨b, hb, hp⟩
  · simp [computeLastReset, h]
  · simp [computeLastReset, h]
  · rcases eq_or_ne b "" with rfl | hbne
    · simp [computeLastReset, hb]
    · simp [computeLastReset, hb, hbne, hp]

/-- Witness for the amended C3: a concrete unparseable begin-timestamp
leaves a previously set marker at epoch 5. -/
theorem C3_amended_witness :
    (handleCoordinatorUpdate parseNoneFn [("in1", { getBegin := some "garbage" })]
        "in1" (some "id1") (some 5)).1 = some 5 :=
  C3_amended_unparseable_keeps_marker parseNoneFn
    [("in1", { getBegin := some "garbage" })] "in1" (some "id1") (some 5)
    { getBegin := some "garbage" } rfl
    (Or.inr (Or.inr ⟨"garbage", rfl, rfl⟩))

/-- C4: on an update where the key is present and the begin-timestamp
parses, the last-reset marker becomes the parsed datetime when its epoch
value is strictly greater than 86400, and `None` when it is 86400 or
below. -/
theorem C4_reset_threshold (parse : String → Option ℚ)
    (snapshot : List (String × Sensor)) (key : String)
    (uid : Option String) (lr : Option ℚ) (data : Sensor) (b : String) (t : ℚ)
    (hdata : snapshot.lookup key = some data)
    (hb : data.getBegin = some b) (hbne : b ≠ "")
    (hp : parse b = some t) :
    (86400 < t →
      (handleCoordinatorUpdate parse snapshot key uid lr).1 = some t) ∧
    (t ≤ 86400 →
      (handleCoordinatorUpdate parse snapshot key uid lr).1 = Option.none) := by
  constructor
  · intro h
    simp [handleCoordinatorUpdate, hdata, computeLastReset, hb, hbne, hp, h]
  · intro h
    simp [handleCoordinatorUpdate, hdata, computeLastReset, hb, hbne, hp,
      not_lt.mpr h]

/-- Witness for C4: both sides of the threshold at concrete inputs — epoch
86401 becomes the marker, epoch 86400 clears it. -/
theorem C4_reset_threshold_witness :
    (handleCoordinatorUpdate parseTs86401 [("in1", { getBegin := some "ts" })]
        "in1" (some "id1") Option.none).1 = some 86401 ∧
    (handleCoordinatorUpdate parseTs86400 [("in1", { getBegin := some "ts" })]
        "in1" (some "id1") (some 5)).1 = Option.none :=
  ⟨(C4_reset_threshold parseTs86401 [("in1", { getBegin := some "ts" })]
      "in1" (some "id1") Option.none { getBegin := some "ts" } "ts" 86401
      rfl rfl (by decide) rfl).1 (by norm_num),
   (C4_reset_threshold parseTs86400 [("in1", { getBegin := some "ts" })]
      "in1" (some "id1") (some 5) { getBegin := some "ts" } "ts" 86400
      rfl rfl (by decide) rfl).2 (by norm_num)⟩

/-- C8: when the adapter's key has vanished from the snapshot, the update
handler performs exactly one removal action — registry removal when the
unique id is truthy, asynchronous self-removal otherwise — and returns
early: neither the last-reset recomputation nor the base-class update
handling runs, and the marker is untouched. -/
theorem C8_removal_short_circuit (parse : String → Option ℚ)
    (snapshot : List (String × Sensor)) (key : String)
    (uid : Option String) (lr : Option ℚ)
    (h : snapshot.lookup key = Option.none) :
    (handleCoordinatorUpdate parse snapshot key uid lr).2 =
      [if pyTruthyStr uid then UpdateAction.removeFromRegistry
       else UpdateAction.selfRemove] ∧
    (handleCoordinatorUpdate parse snapshot key uid lr).2.length = 1 ∧
    UpdateAction.recomputeLastReset ∉
      (handleCoordinatorUpdate parse snapshot key uid lr).2 ∧
    UpdateAction.superUpdate ∉
      (handleCoordinatorUpdate parse snapshot key uid lr).2 ∧
    (handleCoordinatorUpdate parse snapshot key uid lr).1 = lr := by
  by_cases ht : pyTruthyStr uid <;>
    simp [handleCoordinatorUpdate, h, ht]

/-- Witness for C8: an empty snapshot and a truthy unique id produce the
single registry-removal action and leave the marker untouched. -/
theorem C8_removal_short_circuit_witness :
    (handleCoordinatorUpdate parseNoneFn [] "in1" (some "id1") (some 5)).2.length = 1 ∧
    (handleCoordinatorUpdate parseNoneFn [] "in1" (some "id1") (some 5)).1 = some 5 :=
  ⟨(C8_removal_short_circuit parseNoneFn [] "in1" (some "id1") (some 5) rfl).2.1,
   (C8_removal_short_circuit parseNoneFn [] "in1" (some "id1") (some 5) rfl).2.2.2.2⟩

/-- When a bound is configured and the value to limit is `None`, the
ordered comparison raises (`applyLimits` returns no `ok`). -/
lemma applyLimits_pynone_raises (desc : IotaWattSensorEntityDescription)
    (hb : desc.min_value ≠ Option.none ∨ desc.max_value ≠ Option.none) :
    ∀ r, applyLimits desc PyVal.pynone ≠ Except.ok r := by
  intro r
  rcases hmin : desc.min_value with _ | m
  · rcases hmax : desc.max_value with _ | mx
    · rcases hb with hb | hb
      · exact absurd hmin hb
      · exact absurd hmax hb
    · simp [applyLimits, hmin, hmax]
  · simp [applyLimits, hmin]

/-- A numeric value never makes `applyLimits` raise. -/
lemma applyLimits_num_no_raise (desc : IotaWattSensorEntityDescription) (q : ℚ) :
    ∀ e, applyLimits desc (PyVal.num q) ≠ Except.error e := by
  intro e
  rcases hmin : desc.min_value with _ | m <;>
    rcases hmax : desc.max_value with _ | mx <;>
      simp only [applyLimits, hmin, hmax] <;>
        (try split) <;> (try split) <;> simp

/-- C9 (implicit): the native-value read is total only for numeric values —
when the value after the optional transform is Python `None` and a min or
max bound is configured, the ordered comparison raises a `TypeError`
instead of reporting unavailable; when the transformed value is numeric,
no exception is ever raised. -/
theorem C9_none_comparison_raises (desc : IotaWattSensorEntityDescription)
    (data : Sensor) :
    ((desc.min_value ≠ Option.none ∨ desc.max_value ≠ Option.none) →
      transformedValue desc data.getValue = Except.ok PyVal.pynone →
      ∀ r, native_value desc data ≠ Except.ok r) ∧
    (∀ q, transformedValue desc data.getValue = Except.ok (PyVal.num q) →
      ∀ e, native_value desc data ≠ Except.error e) := by
  constructor
  · intro hb ht r
    simpa [native_value, ht] using applyLimits_pynone_raises desc hb r
  · intro q ht e
    simpa [native_value, ht] using applyLimits_num_no_raise desc q e

/-- Witness for C9: the Amps descriptor (bounds configured) with a `None`
sensor value yields no `ok` result — in particular not the "unavailable
with one warning" outcome. -/
theorem C9_none_comparison_raises_witness :
    native_value ampsDescription { getValue := PyVal.pynone } ≠
      Except.ok (Option.none, 1) :=
  (C9_none_comparison_raises ampsDescription { getValue := PyVal.pynone }).1
    (Or.inl (by decide)) rfl (Option.none, 1)

/-- C10 (implicit): the removal branch chooses by truthiness, not by
assignment — `_attr_unique_id` is assigned at construction from
`getSensorID()`, and when the key later disappears, an adapter whose
reported id was the empty string or `None` takes the asynchronous
self-removal path rather than entity-registry removal. -/
theorem C10_truthiness_removal (parse : String → Option ℚ)
    (snapshot snapshot2 : List (String × Sensor)) (key : String)
    (lr : Option ℚ) (data : Sensor)
    (h1 : snapshot.lookup key = some data)
    (h2 : data.getSensorID = some "" ∨ data.getSensorID = Option.none)
    (h3 : snapshot2.lookup key = Option.none) :
    initAttrUniqueId snapshot key = some data.getSensorID ∧
    (handleCoordinatorUpdate parse snapshot2 key data.getSensorID lr).2 =
      [UpdateAction.selfRemove] := by
  refine ⟨by simp [initAttrUniqueId, h1], ?_⟩
  rcases h2 with h | h <;> simp [handleCoordinatorUpdate, h3, h, pyTruthyStr]

/-- Witness for C10: a sensor reporting the empty string as its id is
assigned that id at construction, yet takes the self-removal path when its
key vanishes. -/
theorem C10_truthiness_removal_witness :
    initAttrUniqueId [("in1", { getSensorID := some "" })] "in1" = some (some "") ∧
    (handleCoordinatorUpdate parseNoneFn [] "in1" (some "") (some 5)).2 =
      [UpdateAction.selfRemove] :=
  C10_truthiness_removal parseNoneFn [("in1", { getSensorID := some "" })] []
    "in1" (some 5) { getSensorID := some "" } rfl (Or.inl rfl) rfl

end IotaWatt
